import Mathlib

/-!
A shallow embedding of the weather-lookup service in `go-6/main.go`
(city → geocode → forecast → display, with a Postgres-backed cache of
looked-up cities), together with proofs of its specified properties.

Modelling conventions:
* `float64` coordinate/temperature values are modelled as the exact
  decimal numbers decoded from the JSON payloads (`Decimal`: an integer
  mantissa scaled by a power of ten); the numbers exercised here are
  short decimals, for which decimal arithmetic agrees with the
  double-precision pipeline.
* The external collaborators (the geocoding HTTP call, the forecast HTTP
  call, the database driver) are modelled by explicit outcome values
  carried in a `World` record, so that network failures and store
  failures can be injected, and by a `geoCalls` counter recording how
  many geocoding requests were issued.
* Go's `error` results become `Except AppError`; an index-out-of-range
  panic in the formatter is modelled as the distinguished outcome
  `AppError.indexOutOfRange`.
-/

/-- Powers of ten. -/
def pow10 : Nat → Nat
  | 0 => 1
  | n + 1 => 10 * pow10 n

/-- An exact decimal number `mantissa / 10 ^ exp10`, the value decoded
from a JSON number literal. -/
structure Decimal where
  mantissa : Int
  exp10 : Nat
deriving DecidableEq, Repr

instance (n : Nat) : OfNat Decimal n := ⟨⟨Int.ofNat n, 0⟩⟩

instance : OfScientific Decimal :=
  ⟨fun m b e =>
    if b then ⟨Int.ofNat m, e⟩ else ⟨Int.ofNat m * Int.ofNat (pow10 e), 0⟩⟩

/-- Structure `LatLong` from the source: a latitude/longitude pair (JSON floats,
modelled as exact decimals). -/
structure LatLong where
  latitude : Decimal
  longitude : Decimal
deriving DecidableEq, Repr

/-- Structure `GeoResponse` from the source: the decoded body of the geocoding API,
`{ results: [ {latitude, longitude}, ... ] }`. -/
structure GeoResponse where
  results : List LatLong
deriving DecidableEq, Repr

/-- One row of the `cities` table:
`cities(id SERIAL PRIMARY KEY, name TEXT, lat NUMERIC, long NUMERIC)`. -/
structure CityRow where
  id : Nat
  name : String
  lat : Decimal
  long : Decimal
deriving DecidableEq, Repr

/-- The `cities` table: rows in physical (insertion) order plus the next
value of the `id` sequence. -/
structure DB where
  rows : List CityRow
  nextId : Nat
deriving DecidableEq, Repr

/-- The error outcomes of the pipeline.  `noResults` is the
`"no results found"` error (the spec's `NotFoundError`); `geoNet`,
`geoDecode`, `weatherNet` and `bodyRead` are the wrapped transport and
decode failures (the spec's `UpstreamError`/`DecodeError`); `store` is a
database-layer failure (the spec's `StoreError`); `timeParse` and
`indexOutOfRange` are the formatter's failure modes. -/
inductive AppError where
  | geoNet (msg : String)
  | geoDecode (msg : String)
  | noResults
  | store (msg : String)
  | decode (msg : String)
  | timeParse (s : String)
  | indexOutOfRange
  | weatherNet (msg : String)
  | bodyRead (msg : String)
deriving DecidableEq, Repr

instance {ε α : Type} [DecidableEq ε] [DecidableEq α] :
    DecidableEq (Except ε α) := fun x y =>
  match x, y with
  | Except.ok a, Except.ok b =>
    if h : a = b then isTrue (by rw [h])
    else isFalse (fun hc => h (by injection hc))
  | Except.error a, Except.error b =>
    if h : a = b then isTrue (by rw [h])
    else isFalse (fun hc => h (by injection hc))
  | Except.ok _, Except.error _ => isFalse (fun hc => Except.noConfusion hc)
  | Except.error _, Except.ok _ => isFalse (fun hc => Except.noConfusion hc)

/-- Behaviour of the geocoding collaborator for the request issued by
`fetchLatLong`: the HTTP GET fails, the JSON decode fails, or a decoded
`GeoResponse` arrives. -/
inductive GeoOutcome where
  | netErr (msg : String)
  | decodeErr (msg : String)
  | response (g : GeoResponse)
deriving DecidableEq, Repr

/-- The state threaded through the resolver: the database, injected
store-layer failures for the next read/write, the geocoding
collaborator's behaviour, and a counter of geocoding requests issued. -/
structure World where
  db : DB
  readFail : Option String
  writeFail : Option String
  geo : GeoOutcome
  geoCalls : Nat
deriving DecidableEq, Repr

/-- The first row of the `cities` table matching `name`
(`SELECT lat, long FROM cities WHERE name = $1`, no ORDER BY: physical
order on an append-only table). -/
def findCity (db : DB) (name : String) : Option LatLong :=
  (db.rows.find? (fun r => r.name == name)).map (fun r => ⟨r.lat, r.long⟩)

/-- Outcome of `db.Get`: a row, `sql.ErrNoRows`, or a store-layer
failure.  The source only ever tests `err == nil`, so the last two are
indistinguishable to it. -/
inductive GetResult where
  | found (ll : LatLong)
  | errNoRows
  | errStore (msg : String)
deriving DecidableEq, Repr

/-- Whether a `GetResult` is a found row. -/
def GetResult.isFound : GetResult → Bool
  | GetResult.found _ => true
  | _ => false

/-- The read `db.Get(&latLong, "SELECT lat, long FROM cities WHERE name = $1", name)`. -/
def dbGet (w : World) (name : String) : GetResult :=
  match w.readFail with
  | some m => GetResult.errStore m
  | none =>
    match findCity w.db name with
    | some ll => GetResult.found ll
    | none => GetResult.errNoRows

/-- Function `insertCity`: `INSERT INTO cities (name, lat, long) VALUES ($1,$2,$3)`;
appends one row with the next sequence id, or fails at the store layer. -/
def insertCity (w : World) (name : String) (latLong : LatLong) :
    World × Except AppError Unit :=
  match w.writeFail with
  | some m => (w, Except.error (AppError.store m))
  | none =>
    ({ w with
        db := { rows := w.db.rows ++ [⟨w.db.nextId, name, latLong.latitude, latLong.longitude⟩],
                nextId := w.db.nextId + 1 } },
     Except.ok ())

/-- Function `fetchLatLong`: issue the geocoding GET for the city, decode a
`GeoResponse`, fail with `"no results found"` when `len(results) < 1`,
otherwise return `results[0]`. -/
def fetchLatLong (geo : GeoOutcome) : Except AppError LatLong :=
  match geo with
  | GeoOutcome.netErr m => Except.error (AppError.geoNet m)
  | GeoOutcome.decodeErr m => Except.error (AppError.geoDecode m)
  | GeoOutcome.response g =>
    match g.results with
    | [] => Except.error AppError.noResults
    | r :: _ => Except.ok r

/-- The cache-miss path of `getLatLong`: call `fetchLatLong` (counted in
`geoCalls`), then `insertCity`, propagating the first error. -/
def resolveMiss (w : World) (name : String) : World × Except AppError LatLong :=
  let w1 := { w with geoCalls := w.geoCalls + 1 }
  match fetchLatLong w.geo with
  | Except.error e => (w1, Except.error e)
  | Except.ok latLong =>
    match insertCity w1 name latLong with
    | (w2, Except.error e) => (w2, Except.error e)
    | (w2, Except.ok _) => (w2, Except.ok latLong)

/-- Function `getLatLong(db, name)`: try the cache read; on `err == nil` return the
stored coordinates; on ANY read error (no rows or store failure alike)
fall through to fetch-and-insert. -/
def getLatLong (w : World) (name : String) : World × Except AppError LatLong :=
  match dbGet w name with
  | GetResult.found ll => (w, Except.ok ll)
  | GetResult.errNoRows => resolveMiss w name
  | GetResult.errStore _ => resolveMiss w name

/-- Sort of the `cities` rows by descending `id`
(`ORDER BY id DESC`). -/
def sortByIdDesc (rows : List CityRow) : List CityRow :=
  List.insertionSort (fun a b => b.id ≤ a.id) rows

/-- Function `getLastCities`: `SELECT name FROM cities ORDER BY id DESC LIMIT 10`,
or a store-layer failure. -/
def getLastCities (w : World) : Except AppError (List String) :=
  match w.readFail with
  | some m => Except.error (AppError.store m)
  | none => Except.ok (((sortByIdDesc w.db.rows).take 10).map (fun r => r.name))

/-- Behaviour of the forecast collaborator for the request issued by
`getWeather`: the HTTP GET fails, or a response arrives with a status
code and a body-read outcome. -/
inductive WeatherHttp where
  | netErr (msg : String)
  | response (status : Nat) (bodyRead : Except String String)
deriving Repr

/-- Function `getWeather`: issue the forecast GET; on success read the whole body
and return it verbatim.  The status code is never inspected. -/
def getWeather (h : WeatherHttp) : Except AppError String :=
  match h with
  | WeatherHttp.netErr m => Except.error (AppError.weatherNet m)
  | WeatherHttp.response _ body =>
    match body with
    | Except.error m => Except.error (AppError.bodyRead m)
    | Except.ok b => Except.ok b

/-- Whether an `Except AppError` outcome is a store error. -/
def isStoreErr {α : Type} : Except AppError α → Bool
  | Except.error (AppError.store _) => true
  | _ => false

/-- Value of a decimal digit character. -/
def digitVal (c : Char) : Nat := c.toNat - 48

/-- Gregorian leap-year test (as in Go's `time` package is_leap rule). -/
def isLeap (y : Nat) : Bool := y % 4 == 0 && (y % 100 != 0 || y % 400 == 0)

/-- Number of days in month `m` (1–12) of year `y`. -/
def daysInMonth (y m : Nat) : Nat :=
  match m with
  | 1 => 31
  | 2 => if isLeap y then 29 else 28
  | 3 => 31
  | 4 => 30
  | 5 => 31
  | 6 => 30
  | 7 => 31
  | 8 => 31
  | 9 => 30
  | 10 => 31
  | 11 => 30
  | 12 => 31
  | _ => 0

/-- Days in year `y` strictly before month `m`. -/
def daysBeforeMonth (y m : Nat) : Nat :=
  (List.range (m - 1)).foldl (fun acc i => acc + daysInMonth y (i + 1)) 0

/-- A wall-clock timestamp as parsed from `YYYY-MM-DDTHH:MM`. -/
structure DateTime where
  year : Nat
  month : Nat
  day : Nat
  hour : Nat
  minute : Nat
deriving DecidableEq, Repr

/-- Days from 0001-01-01 to the given date in the proleptic Gregorian
calendar (Go's absolute date; day 0, Jan 1 of year 1, is a Monday). -/
def rataDie (y m d : Nat) : Nat :=
  365 * (y - 1) + (y - 1) / 4 + (y - 1) / 400 + daysBeforeMonth y m + (d - 1) - (y - 1) / 100

/-- Weekday index of a date: 0 = Monday … 6 = Sunday. -/
def weekday (y m d : Nat) : Nat := rataDie y m d % 7

/-- Go's abbreviated weekday names, indexed from Monday. -/
def weekdayAbbrev : Nat → String
  | 0 => "Mon"
  | 1 => "Tue"
  | 2 => "Wed"
  | 3 => "Thu"
  | 4 => "Fri"
  | 5 => "Sat"
  | _ => "Sun"

/-- Go's abbreviated month names. -/
def monthAbbrev : Nat → String
  | 1 => "Jan"
  | 2 => "Feb"
  | 3 => "Mar"
  | 4 => "Apr"
  | 5 => "May"
  | 6 => "Jun"
  | 7 => "Jul"
  | 8 => "Aug"
  | 9 => "Sep"
  | 10 => "Oct"
  | 11 => "Nov"
  | _ => "Dec"

/-- Two-digit zero-padded rendering (layout elements `15` and `04`). -/
def pad2 (n : Nat) : String := if n < 10 then "0" ++ toString n else toString n

/-- The call `time.Parse("2006-01-02T15:04", t)`: a fixed 16-character layout of
four year digits, two month digits, two day digits, two hour digits and
two minute digits with literal `-`, `T`, `:` separators, followed by
Go's range validation (month 1–12, day within the month, hour ≤ 23,
minute ≤ 59).  Any other shape is a parse error (`none`). -/
def parseGoTime (s : String) : Option DateTime :=
  match s.toList with
  | [y1, y2, y3, y4, s1, m1, m2, s2, d1, d2, s3, h1, h2, s4, n1, n2] =>
    if y1.isDigit && y2.isDigit && y3.isDigit && y4.isDigit && s1 == '-' &&
       m1.isDigit && m2.isDigit && s2 == '-' && d1.isDigit && d2.isDigit &&
       s3 == 'T' && h1.isDigit && h2.isDigit && s4 == ':' &&
       n1.isDigit && n2.isDigit then
      let y := 1000 * digitVal y1 + 100 * digitVal y2 + 10 * digitVal y3 + digitVal y4
      let mo := 10 * digitVal m1 + digitVal m2
      let da := 10 * digitVal d1 + digitVal d2
      let ho := 10 * digitVal h1 + digitVal h2
      let mi := 10 * digitVal n1 + digitVal n2
      if 1 ≤ mo && mo ≤ 12 && 1 ≤ da && da ≤ daysInMonth y mo && ho ≤ 23 && mi ≤ 59 then
        some ⟨y, mo, da, ho, mi⟩
      else none
    else none
  | _ => none

/-- The call `date.Format("Mon, 2 Jan 15:04")`: abbreviated weekday, unpadded day,
abbreviated month, zero-padded 24-hour time. -/
def formatGoDate (dt : DateTime) : String :=
  weekdayAbbrev (weekday dt.year dt.month dt.day) ++ ", " ++ toString dt.day ++ " " ++
    monthAbbrev dt.month ++ " " ++ pad2 dt.hour ++ ":" ++ pad2 dt.minute

/-- The value `10·q` rounded to the nearest integer (the integer number of tenths
printed by `%.1f`): `⌊10·q + 1/2⌋` computed on the exact decimal. -/
def roundTenths (q : Decimal) : Int :=
  Int.fdiv (20 * q.mantissa + Int.ofNat (pow10 q.exp10))
    (2 * Int.ofNat (pow10 q.exp10))

/-- The rendering `fmt.Sprintf("%.1f", x)` on an exact decimal: round to the nearest
tenth and print with exactly one digit after the decimal point. -/
def fmtF1 (q : Decimal) : String :=
  (if roundTenths q < 0 then "-" else "") ++
    ((roundTenths q).natAbs / 10).repr ++ "." ++
    ((roundTenths q).natAbs % 10).repr

/-- The rendering `fmt.Sprintf("%.1f°C", x)`. -/
def fmtTempC (q : Decimal) : String := fmtF1 q ++ "°C"

/-- The nested `hourly` object of the forecast response. -/
structure Hourly where
  time : List String
  temperature2m : List Decimal
deriving DecidableEq, Repr

/-- Structure `WeatherResponse`: the decoded forecast payload.  A JSON payload with
an absent `hourly` object decodes to the Go zero value, i.e. empty
arrays. -/
structure WeatherResponse where
  latitude : Decimal
  longitude : Decimal
  timezone : String
  hourly : Hourly
deriving DecidableEq, Repr

/-- Structure `Forecast`: one display row. -/
structure Forecast where
  date : String
  temperature : String
deriving DecidableEq, Repr

/-- Structure `WeatherDisplay`: the rendered result. -/
structure WeatherDisplay where
  city : String
  forecasts : List Forecast
deriving DecidableEq, Repr

/-- The loop body of `extractWeatherData`,
`for i, t := range hourly.Time`, consuming the two arrays in lockstep
(positional index alignment): at each position the timestamp is parsed
first (parse failure returns that error), then `Temperature2m[i]` is
read — if the temperature array is exhausted that access is out of
range. -/
def buildForecasts : List String → List Decimal → Except AppError (List Forecast)
  | [], _ => Except.ok []
  | t :: ts, temps =>
    match parseGoTime t with
    | none => Except.error (AppError.timeParse t)
    | some dt =>
      match temps with
      | [] => Except.error AppError.indexOutOfRange
      | q :: qs =>
        match buildForecasts ts qs with
        | Except.error e => Except.error e
        | Except.ok fs => Except.ok (⟨formatGoDate dt, fmtTempC q⟩ :: fs)

/-- Function `extractWeatherData(city, rawWeather)`: decode the payload (the
`json.Unmarshal` outcome is the `raw` argument), then build the forecast
rows, then wrap them with the city name. -/
def extractWeatherData (city : String) (raw : Except String WeatherResponse) :
    Except AppError WeatherDisplay :=
  match raw with
  | Except.error m => Except.error (AppError.decode m)
  | Except.ok wr =>
    match buildForecasts wr.hourly.time wr.hourly.temperature2m with
    | Except.error e => Except.error e
    | Except.ok fs => Except.ok ⟨city, fs⟩


/-- A store already holding a row for Berlin (cache hit scenario). -/
def cachedWorld : World :=
  { db := ⟨[⟨0, "Berlin", 52, 13⟩], 1⟩, readFail := none, writeFail := none,
    geo := GeoOutcome.netErr "unreachable", geoCalls := 0 }

/-- An empty store with a geocoder answering one result (cache miss
scenario). -/
def missWorld : World :=
  { db := ⟨[], 0⟩, readFail := none, writeFail := none,
    geo := GeoOutcome.response ⟨[⟨52, 13⟩]⟩, geoCalls := 0 }

/-- An injected store-layer read failure with a working geocoder. -/
def readFailWorld : World :=
  { db := ⟨[], 0⟩, readFail := some "connection lost", writeFail := none,
    geo := GeoOutcome.response ⟨[⟨52, 13⟩]⟩, geoCalls := 0 }

/-- An empty store with an injected store-layer write failure. -/
def writeFailWorld : World :=
  { db := ⟨[], 0⟩, readFail := none, writeFail := some "disk full",
    geo := GeoOutcome.response ⟨[⟨1, 2⟩]⟩, geoCalls := 0 }

/-- An empty store with a geocoder answering zero results. -/
def noResultWorld : World :=
  { db := ⟨[], 0⟩, readFail := none, writeFail := none,
    geo := GeoOutcome.response ⟨[]⟩, geoCalls := 0 }

/-- A decodable forecast payload with empty hourly arrays. -/
def emptyHourlyResponse : WeatherResponse := ⟨0, 0, "", ⟨[], []⟩⟩

/-- C1: for every city name that already has a row in the store (and the
read succeeds), `getLatLong` returns the stored coordinates with the
world unchanged — in particular `geoCalls` is unchanged, so the
geocoding collaborator is not invoked, and no freshness check or expiry
is applied. -/
theorem claim1_cache_hit (w : World) (name : String) (ll : LatLong)
    (hread : w.readFail = none) (hfind : findCity w.db name = some ll) :
    getLatLong w name = (w, Except.ok ll) := by
  simp only [getLatLong, dbGet, hread, hfind]

/-- C1 witness: a concrete store holding Berlin at (52, 13) resolves to
the stored coordinates with the world (hence the geocoding call count)
unchanged. -/
theorem claim1_cache_hit_witness :
    cachedWorld.readFail = none ∧
    findCity cachedWorld.db "Berlin" = some ⟨52, 13⟩ ∧
    getLatLong cachedWorld "Berlin" = (cachedWorld, Except.ok ⟨52, 13⟩) :=
  ⟨rfl, by decide, claim1_cache_hit cachedWorld "Berlin" ⟨52, 13⟩ rfl (by decide)⟩

/-- C2: for a city with no row in the store, when the geocoding
collaborator answers with at least one result, `getLatLong` returns the
first result's coordinates and appends exactly one new row for that city
(one geocoding call is made). -/
theorem claim2_miss_fetch_insert (w : World) (name : String) (r : LatLong)
    (rs : List LatLong)
    (hread : w.readFail = none) (hfind : findCity w.db name = none)
    (hgeo : w.geo = GeoOutcome.response ⟨r :: rs⟩) (hwrite : w.writeFail = none) :
    getLatLong w name =
      ({ w with
          db := { rows := w.db.rows ++ [⟨w.db.nextId, name, r.latitude, r.longitude⟩],
                  nextId := w.db.nextId + 1 },
          geoCalls := w.geoCalls + 1 },
       Except.ok r) := by
  simp only [getLatLong, dbGet, hread, hfind, resolveMiss, fetchLatLong, hgeo,
    insertCity, hwrite]

/-- C2 witness: resolving "Berlin" against an empty store and a stub
geocoder answering (52, 13) yields those coordinates and exactly the one
new row (id 0), with one geocoding call recorded. -/
theorem claim2_miss_fetch_insert_witness :
    missWorld.readFail = none ∧
    findCity missWorld.db "Berlin" = none ∧
    missWorld.geo = GeoOutcome.response ⟨[⟨52, 13⟩]⟩ ∧
    missWorld.writeFail = none ∧
    getLatLong missWorld "Berlin" =
      ({ missWorld with
          db := { rows := missWorld.db.rows ++ [⟨missWorld.db.nextId, "Berlin", 52, 13⟩],
                  nextId := missWorld.db.nextId + 1 },
          geoCalls := missWorld.geoCalls + 1 },
       Except.ok ⟨52, 13⟩) :=
  ⟨rfl, rfl, rfl, rfl,
    claim2_miss_fetch_insert missWorld "Berlin" ⟨52, 13⟩ [] rfl rfl rfl rfl⟩

/-- C3 counterexample: when the persistent read fails (store connection
lost) the claim says `resolve` fails with `StoreError`; instead the code
treats the failed read exactly like a cache miss, calls the geocoder and
succeeds — the result is `ok (52, 13)` and is not a store error. -/
theorem claim3_read_fail_not_store_error :
    (getLatLong readFailWorld "Berlin").2 = Except.ok ⟨52, 13⟩ ∧
    isStoreErr (getLatLong readFailWorld "Berlin").2 = false := by
  exact ⟨rfl, rfl⟩

/-- C3 (amended): if the cache read does not produce a row (whether
no-rows or a store-layer read failure) and the geocoder answers, a
failing persistent write makes `getLatLong` fail with the store error;
a failing persistent read alone does not fail the resolve. -/
theorem claim3_write_fail_store_error (w : World) (name msg : String)
    (r : LatLong) (rs : List LatLong)
    (hmiss : (dbGet w name).isFound = false)
    (hgeo : w.geo = GeoOutcome.response ⟨r :: rs⟩)
    (hwrite : w.writeFail = some msg) :
    (getLatLong w name).2 = Except.error (AppError.store msg) := by
  unfold getLatLong
  cases h : dbGet w name with
  | found ll => rw [h] at hmiss; simp [GetResult.isFound] at hmiss
  | errNoRows =>
    simp only [resolveMiss, fetchLatLong, hgeo, insertCity, hwrite]
  | errStore m =>
    simp only [resolveMiss, fetchLatLong, hgeo, insertCity, hwrite]

/-- C3 witness: with an empty store, a geocoder answering (1, 2) and an
injected write failure "disk full", `getLatLong` fails with
`store "disk full"`. -/
theorem claim3_write_fail_store_error_witness :
    (dbGet writeFailWorld "Berlin").isFound = false ∧
    writeFailWorld.geo = GeoOutcome.response ⟨[⟨1, 2⟩]⟩ ∧
    writeFailWorld.writeFail = some "disk full" ∧
    (getLatLong writeFailWorld "Berlin").2 = Except.error (AppError.store "disk full") :=
  ⟨by decide, rfl, rfl,
    claim3_write_fail_store_error writeFailWorld "Berlin" "disk full" ⟨1, 2⟩ []
      (by decide) rfl rfl⟩

/-- C4: for a city not present in the store (read succeeding), when the
geocoder returns zero results, `getLatLong` fails with the
"no results found" error and the world changes only by the one recorded
geocoding call — in particular the table is unchanged (no insert). -/
theorem claim4_no_results (w : World) (name : String)
    (hread : w.readFail = none) (hfind : findCity w.db name = none)
    (hgeo : w.geo = GeoOutcome.response ⟨[]⟩) :
    getLatLong w name =
      ({ w with geoCalls := w.geoCalls + 1 }, Except.error AppError.noResults) := by
  simp only [getLatLong, dbGet, hread, hfind, resolveMiss, fetchLatLong, hgeo]

/-- C4 witness: an empty store and a geocoder answering zero results
yields the not-found error with the table unchanged. -/
theorem claim4_no_results_witness :
    noResultWorld.readFail = none ∧
    findCity noResultWorld.db "Atlantis" = none ∧
    noResultWorld.geo = GeoOutcome.response ⟨[]⟩ ∧
    getLatLong noResultWorld "Atlantis" =
      ({ noResultWorld with geoCalls := noResultWorld.geoCalls + 1 },
       Except.error AppError.noResults) :=
  ⟨rfl, rfl, rfl, claim4_no_results noResultWorld "Atlantis" rfl rfl rfl⟩

/-- C7 counterexample: a received response with non-success status 500
and body "oops" is NOT an `UpstreamError` failure — `getWeather` returns
the body verbatim, because the status code is never inspected. -/
theorem claim7_status_not_inspected :
    getWeather (WeatherHttp.response 500 (Except.ok "oops")) = Except.ok "oops" ∧
    isStoreErr (getWeather (WeatherHttp.response 500 (Except.ok "oops"))) = false := by
  exact ⟨rfl, rfl⟩

/-- C7 (amended): `getWeather` fails with an upstream error on network
failure and on a body-read failure; any received response's body is
returned verbatim regardless of its status code. -/
theorem claim7_fetch_forecast (st : Nat) (b m mb : String) :
    getWeather (WeatherHttp.netErr m) = Except.error (AppError.weatherNet m) ∧
    getWeather (WeatherHttp.response st (Except.error mb)) =
      Except.error (AppError.bodyRead mb) ∧
    getWeather (WeatherHttp.response st (Except.ok b)) = Except.ok b :=
  ⟨rfl, rfl, rfl⟩

/-- C10: a decodable payload whose hourly time array is empty (as the
Go zero value of an absent or empty `hourly` object is) formats
successfully into a display carrying the city name unchanged and an
empty forecast sequence. -/
theorem claim10_empty_hourly (city : String) (wr : WeatherResponse)
    (h : wr.hourly.time = []) :
    extractWeatherData city (Except.ok wr) = Except.ok ⟨city, []⟩ := by
  simp only [extractWeatherData, h, buildForecasts]

/-- C10 witness: the empty payload formats to
`⟨"Berlin", []⟩` for city "Berlin". -/
theorem claim10_empty_hourly_witness :
    emptyHourlyResponse.hourly.time = [] ∧
    extractWeatherData "Berlin" (Except.ok emptyHourlyResponse) =
      Except.ok ⟨"Berlin", []⟩ :=
  ⟨rfl, claim10_empty_hourly "Berlin" emptyHourlyResponse rfl⟩

/-- The decoded payload of the concrete Berlin scenario:
`{hourly:{time:["2024-06-01T12:00"],temperature_2m:[21.4]}}`. -/
def berlinResponse : WeatherResponse :=
  ⟨52.52, 13.4, "", ⟨["2024-06-01T12:00"], [21.4]⟩⟩

/-- The decimal rendering of a digit is a single digit character. -/
theorem repr_digit (k : Nat) (h : k < 10) :
    ∃ d : Char, d.isDigit ∧ k.repr = String.singleton d := by
  interval_cases k
  · exact ⟨'0', by decide, rfl⟩
  · exact ⟨'1', by decide, rfl⟩
  · exact ⟨'2', by decide, rfl⟩
  · exact ⟨'3', by decide, rfl⟩
  · exact ⟨'4', by decide, rfl⟩
  · exact ⟨'5', by decide, rfl⟩
  · exact ⟨'6', by decide, rfl⟩
  · exact ⟨'7', by decide, rfl⟩
  · exact ⟨'8', by decide, rfl⟩
  · exact ⟨'9', by decide, rfl⟩

/-- Every rendered temperature has exactly one digit after the decimal
point and ends with the `°C` suffix. -/
theorem fmtTempC_one_decimal (q : Decimal) :
    ∃ (pre : String) (d : Char),
      fmtTempC q = pre ++ "." ++ String.singleton d ++ "°C" ∧ d.isDigit := by
  obtain ⟨d, hd, hs⟩ :=
    repr_digit ((roundTenths q).natAbs % 10) (Nat.mod_lt _ (by norm_num))
  refine ⟨(if roundTenths q < 0 then "-" else "") ++
      ((roundTenths q).natAbs / 10).repr, d, ?_, hd⟩
  simp only [fmtTempC, fmtF1, hs, String.append_assoc]

/-- Success shape of the formatter loop: when every timestamp parses and
the temperature array covers the time array, the loop returns one
forecast row per timestamp, in input order, pairing position `i`'s
parsed-and-reformatted timestamp with position `i`'s rendered
temperature. -/
theorem buildForecasts_ok (ts : List String) :
    ∀ qs : List Decimal, ts.length ≤ qs.length →
    (∀ t ∈ ts, (parseGoTime t).isSome) →
    ∃ fs : List Forecast, buildForecasts ts qs = Except.ok fs ∧
      fs.length = ts.length ∧
      (∀ i, i < ts.length →
        ∃ t q dt, ts[i]? = some t ∧ qs[i]? = some q ∧ parseGoTime t = some dt ∧
          fs[i]? = some ⟨formatGoDate dt, fmtTempC q⟩) := by
  induction ts with
  | nil =>
    intro qs _ _
    exact ⟨[], rfl, rfl, fun i hi => absurd hi (by simp)⟩
  | cons t ts ih =>
    intro qs hlen hparse
    obtain ⟨dt, hdt⟩ : ∃ dt, parseGoTime t = some dt :=
      Option.isSome_iff_exists.mp (hparse t (List.mem_cons_self t ts))
    cases qs with
    | nil => simp at hlen
    | cons q qs =>
      obtain ⟨fs, hfs, hlenfs, hpt⟩ := ih qs (by simpa using hlen)
        (fun u hu => hparse u (List.mem_cons_of_mem t hu))
      refine ⟨⟨formatGoDate dt, fmtTempC q⟩ :: fs, ?_, by simp [hlenfs], ?_⟩
      · simp only [buildForecasts, hdt, hfs]
      · intro i hi
        cases i with
        | zero => exact ⟨t, q, dt, by simp, by simp, hdt, by simp⟩
        | succ j =>
          obtain ⟨t', q', dt', h1, h2, h3, h4⟩ := hpt j (by simpa using hi)
          exact ⟨t', q', dt', by simpa using h1, by simpa using h2, h3, by simpa using h4⟩

/-- C5: for every decodable payload with index-aligned, well-formed
time/temperature arrays, the formatter returns one forecast row per
entry, in input order, each temperature rendered with one decimal place
and the `°C` suffix and each timestamp re-rendered through the
`Mon, 2 Jan 15:04` layout; moreover the concrete Berlin payload renders
to `⟨"Berlin", [⟨"Sat, 1 Jun 12:00", "21.4°C"⟩]⟩`. -/
theorem claim5_format_shape :
    (∀ (city : String) (wr : WeatherResponse),
      wr.hourly.time.length = wr.hourly.temperature2m.length →
      (∀ t ∈ wr.hourly.time, (parseGoTime t).isSome) →
      ∃ fs : List Forecast,
        extractWeatherData city (Except.ok wr) = Except.ok ⟨city, fs⟩ ∧
        fs.length = wr.hourly.time.length ∧
        (∀ i, i < wr.hourly.time.length →
          ∃ t q dt, wr.hourly.time[i]? = some t ∧
            wr.hourly.temperature2m[i]? = some q ∧ parseGoTime t = some dt ∧
            fs[i]? = some ⟨formatGoDate dt, fmtTempC q⟩) ∧
        (∀ f ∈ fs, ∃ (pre : String) (d : Char),
          f.temperature = pre ++ "." ++ String.singleton d ++ "°C" ∧ d.isDigit)) ∧
    extractWeatherData "Berlin" (Except.ok berlinResponse) =
      Except.ok ⟨"Berlin", [⟨"Sat, 1 Jun 12:00", "21.4°C"⟩]⟩ := by
  constructor
  · intro city wr hlen hparse
    obtain ⟨fs, hfs, hlenfs, hpt⟩ :=
      buildForecasts_ok wr.hourly.time wr.hourly.temperature2m (le_of_eq hlen) hparse
    refine ⟨fs, ?_, hlenfs, hpt, ?_⟩
    · simp only [extractWeatherData, hfs]
    · intro f hf
      obtain ⟨i, hi, hget⟩ := List.getElem_of_mem hf
      obtain ⟨t, q, dt, _, _, _, h4⟩ := hpt i (by omega)
      have : f = ⟨formatGoDate dt, fmtTempC q⟩ := by
        have := List.getElem?_eq_getElem hi
        rw [h4] at this
        simpa [hget] using this.symm
      rw [this]
      exact fmtTempC_one_decimal q
  · decide

/-- C5 witness: the general shape theorem applied to the concrete Berlin
payload. -/
theorem claim5_format_shape_witness :
    (berlinResponse.hourly.time.length = berlinResponse.hourly.temperature2m.length) ∧
    (∀ t ∈ berlinResponse.hourly.time, (parseGoTime t).isSome) ∧
    (∃ fs : List Forecast,
      extractWeatherData "Berlin" (Except.ok berlinResponse) =
        Except.ok ⟨"Berlin", fs⟩ ∧
      fs.length = berlinResponse.hourly.time.length ∧
      (∀ i, i < berlinResponse.hourly.time.length →
        ∃ t q dt, berlinResponse.hourly.time[i]? = some t ∧
          berlinResponse.hourly.temperature2m[i]? = some q ∧
          parseGoTime t = some dt ∧
          fs[i]? = some ⟨formatGoDate dt, fmtTempC q⟩) ∧
      (∀ f ∈ fs, ∃ (pre : String) (d : Char),
        f.temperature = pre ++ "." ++ String.singleton d ++ "°C" ∧ d.isDigit)) :=
  ⟨rfl, by decide, claim5_format_shape.1 "Berlin" berlinResponse rfl (by decide)⟩

/-- If every timestamp strictly before position `k` is well-formed, the
one at position `k` is malformed, and the temperature array covers the
positions before `k`, then the loop stops at position `k` with that
timestamp's parse error. -/
theorem buildForecasts_first_bad :
    ∀ (k : Nat) (ts : List String) (qs : List Decimal) (t : String),
    (∀ j, j < k → ((ts[j]?).all fun u => (parseGoTime u).isSome) = true) →
    ts[k]? = some t → parseGoTime t = none → k ≤ qs.length →
    buildForecasts ts qs = Except.error (AppError.timeParse t) := by
  intro k
  induction k with
  | zero =>
    intro ts qs t _ hk hbad _
    cases ts with
    | nil => simp at hk
    | cons u ts =>
      have : u = t := by simpa using hk
      subst this
      simp only [buildForecasts, hbad]
  | succ k ih =>
    intro ts qs t hbefore hk hbad hcover
    cases ts with
    | nil => simp at hk
    | cons u ts =>
      obtain ⟨du, hdu⟩ : ∃ du, parseGoTime u = some du := by
        have h0 := hbefore 0 (Nat.succ_pos k)
        simp only [List.getElem?_cons_zero, Option.all_some] at h0
        exact Option.isSome_iff_exists.mp h0
      cases qs with
      | nil => simp at hcover
      | cons q qs =>
        have hrec : buildForecasts ts qs = Except.error (AppError.timeParse t) := by
          refine ih ts qs t ?_ (by simpa using hk) hbad (by simpa using hcover)
          intro j hj
          have := hbefore (j + 1) (by omega)
          simpa using this
        simp only [buildForecasts, hdu, hrec]

/-- C6 (amended): for every city name and decodable payload containing a
malformed timestamp entry whose earlier positions are covered by the
temperature array (in particular for index-aligned arrays), the
formatter fails with the time-parse error of the first malformed
timestamp, and returns no partial result. -/
theorem claim6_time_parse_error (city : String) (wr : WeatherResponse)
    (k : Nat) (t : String)
    (hbefore : ∀ j, j < k →
      ((wr.hourly.time[j]?).all fun u => (parseGoTime u).isSome) = true)
    (hk : wr.hourly.time[k]? = some t)
    (hbad : parseGoTime t = none)
    (hcover : k ≤ wr.hourly.temperature2m.length) :
    extractWeatherData city (Except.ok wr) =
      Except.error (AppError.timeParse t) ∧
    ∀ wd : WeatherDisplay, extractWeatherData city (Except.ok wr) ≠ Except.ok wd := by
  have h := buildForecasts_first_bad k wr.hourly.time wr.hourly.temperature2m t
    hbefore hk hbad hcover
  refine ⟨?_, ?_⟩
  · simp only [extractWeatherData, h]
  · intro wd hc
    simp only [extractWeatherData, h] at hc
    exact Except.noConfusion hc

/-- A decodable payload holding the spec's malformed timestamp example
`"2024-13-40"` in second position with index-aligned temperatures. -/
def badSecondStamp : WeatherResponse :=
  ⟨0, 0, "", ⟨["2024-06-01T12:00", "2024-13-40"], [21.4, 22.0]⟩⟩

/-- C6 witness: on `badSecondStamp` the formatter fails with the
time-parse error for `"2024-13-40"` and yields no display. -/
theorem claim6_time_parse_error_witness :
    (∀ j, j < 1 →
      ((badSecondStamp.hourly.time[j]?).all fun u => (parseGoTime u).isSome) = true) ∧
    badSecondStamp.hourly.time[1]? = some "2024-13-40" ∧
    parseGoTime "2024-13-40" = none ∧
    1 ≤ badSecondStamp.hourly.temperature2m.length ∧
    (extractWeatherData "Berlin" (Except.ok badSecondStamp) =
      Except.error (AppError.timeParse "2024-13-40") ∧
    ∀ wd : WeatherDisplay,
      extractWeatherData "Berlin" (Except.ok badSecondStamp) ≠ Except.ok wd) :=
  ⟨by decide, by decide, by decide, by decide,
    claim6_time_parse_error "Berlin" badSecondStamp 1 "2024-13-40"
      (by decide) (by decide) (by decide) (by decide)⟩

/-- A payload that contains a malformed timestamp (`"2024-13-40"`) but
whose temperature array is empty: the out-of-bounds access at position 0
happens before the malformed entry at position 1 is ever parsed. -/
def mismatchBadTime : WeatherResponse :=
  ⟨0, 0, "", ⟨["2024-06-01T12:00", "2024-13-40"], []⟩⟩

/-- C6 counterexample: a decodable payload containing the non-matching
timestamp entry `"2024-13-40"` on which the formatter does NOT fail with
the time-parse error — the temperature index access fails first. -/
theorem claim6_oob_preempts_time_parse :
    parseGoTime "2024-13-40" = none ∧
    extractWeatherData "Berlin" (Except.ok mismatchBadTime) =
      Except.error AppError.indexOutOfRange := by
  exact ⟨rfl, rfl⟩

/-- When the temperature array is strictly shorter than the time array
and every timestamp at a position up to the temperature count is
well-formed, the loop reaches position `qs.length` and the temperature
index access leaves the array bounds. -/
theorem buildForecasts_oob :
    ∀ (qs : List Decimal) (ts : List String),
    qs.length < ts.length →
    (∀ j, j ≤ qs.length →
      ((ts[j]?).all fun u => (parseGoTime u).isSome) = true) →
    buildForecasts ts qs = Except.error AppError.indexOutOfRange := by
  intro qs
  induction qs with
  | nil =>
    intro ts hlen hparse
    cases ts with
    | nil => simp at hlen
    | cons u ts =>
      obtain ⟨du, hdu⟩ : ∃ du, parseGoTime u = some du := by
        have h0 := hparse 0 (Nat.zero_le 0)
        simp only [List.getElem?_cons_zero, Option.all_some] at h0
        exact Option.isSome_iff_exists.mp h0
      simp only [buildForecasts, hdu]
  | cons q qs ih =>
    intro ts hlen hparse
    cases ts with
    | nil => simp at hlen
    | cons u ts =>
      obtain ⟨du, hdu⟩ : ∃ du, parseGoTime u = some du := by
        have h0 := hparse 0 (Nat.zero_le _)
        simp only [List.getElem?_cons_zero, Option.all_some] at h0
        exact Option.isSome_iff_exists.mp h0
      have hrec : buildForecasts ts qs = Except.error AppError.indexOutOfRange := by
        refine ih ts (by simpa using hlen) ?_
        intro j hj
        have := hparse (j + 1) (by simp only [List.length_cons]; omega)
        simpa using this
      simp only [buildForecasts, hdu, hrec]

/-- C9 (amended): for every city name and decodable payload whose time
array is strictly longer than its temperature array and whose timestamps
at positions up to the temperature count are well-formed, the formatter
fails because the temperature index access leaves the array bounds — the
unmatched entries are not gracefully skipped. -/
theorem claim9_length_mismatch_oob (city : String) (wr : WeatherResponse)
    (hlen : wr.hourly.temperature2m.length < wr.hourly.time.length)
    (hparse : ∀ j, j ≤ wr.hourly.temperature2m.length →
      ((wr.hourly.time[j]?).all fun u => (parseGoTime u).isSome) = true) :
    extractWeatherData city (Except.ok wr) = Except.error AppError.indexOutOfRange := by
  have h := buildForecasts_oob wr.hourly.temperature2m wr.hourly.time hlen hparse
  simp only [extractWeatherData, h]

/-- A well-formed two-timestamp payload with a single temperature. -/
def shortTemps : WeatherResponse :=
  ⟨0, 0, "", ⟨["2024-06-01T12:00", "2024-06-01T13:00"], [21.4]⟩⟩

/-- C9 witness: on `shortTemps` (two timestamps, one temperature) the
formatter fails with the out-of-bounds outcome. -/
theorem claim9_length_mismatch_oob_witness :
    shortTemps.hourly.temperature2m.length < shortTemps.hourly.time.length ∧
    (∀ j, j ≤ shortTemps.hourly.temperature2m.length →
      ((shortTemps.hourly.time[j]?).all fun u => (parseGoTime u).isSome) = true) ∧
    extractWeatherData "Berlin" (Except.ok shortTemps) =
      Except.error AppError.indexOutOfRange :=
  ⟨by decide, by decide,
    claim9_length_mismatch_oob "Berlin" shortTemps (by decide) (by decide)⟩

/-- A payload whose time array is longer than its temperature array but
whose very first timestamp is malformed. -/
def badFirstStamp : WeatherResponse := ⟨0, 0, "", ⟨["garbage"], []⟩⟩

/-- C9 counterexample: a payload whose time array is strictly longer than
its temperature array on which the formatter does NOT fail out of
bounds — the malformed first timestamp fails to parse before any
temperature access. -/
theorem claim9_parse_preempts_oob :
    badFirstStamp.hourly.temperature2m.length < badFirstStamp.hourly.time.length ∧
    extractWeatherData "Berlin" (Except.ok badFirstStamp) =
      Except.error (AppError.timeParse "garbage") := by
  exact ⟨by decide, rfl⟩

instance : IsTotal CityRow (fun a b => b.id ≤ a.id) :=
  ⟨fun a b => Nat.le_total b.id a.id⟩

instance : IsTrans CityRow (fun a b => b.id ≤ a.id) :=
  ⟨fun _ _ _ hab hbc => Nat.le_trans hbc hab⟩

/-- C8: with more than 10 rows inserted (ids pairwise distinct, as the
serial primary key guarantees) and the read succeeding, `getLastCities`
returns the names of exactly 10 rows of the table, in strictly
descending id order (most recently inserted first, duplicates of a name
kept), and every unreturned row has a smaller id than every returned
one. -/
theorem claim8_last_ten (w : World)
    (hread : w.readFail = none)
    (h10 : 10 < w.db.rows.length)
    (hids : (w.db.rows.map (fun r => r.id)).Nodup) :
    ∃ sel : List CityRow,
      getLastCities w = Except.ok (sel.map (fun r => r.name)) ∧
      sel.length = 10 ∧
      sel.Chain' (fun a b => b.id < a.id) ∧
      (∀ r ∈ sel, r ∈ w.db.rows) ∧
      (∀ r ∈ sel, ∀ r2 ∈ w.db.rows, r2 ∉ sel → r2.id ≤ r.id) := by
  have hperm : (sortByIdDesc w.db.rows).Perm w.db.rows :=
    List.perm_insertionSort _ _
  have hsorted :
      List.Pairwise (fun a b : CityRow => b.id ≤ a.id) (sortByIdDesc w.db.rows) :=
    List.sorted_insertionSort _ _
  have hlen : (sortByIdDesc w.db.rows).length = w.db.rows.length := hperm.length_eq
  have hnods : ((sortByIdDesc w.db.rows).map (fun r => r.id)).Nodup :=
    ((hperm.map (fun r => r.id)).nodup_iff).mpr hids
  refine ⟨(sortByIdDesc w.db.rows).take 10, ?_, ?_, ?_, ?_, ?_⟩
  · simp only [getLastCities, hread]
  · rw [List.length_take, hlen]
    omega
  · have hpw : List.Pairwise (fun a b : CityRow => b.id ≤ a.id)
        ((sortByIdDesc w.db.rows).take 10) :=
      hsorted.sublist (List.take_sublist 10 _)
    have hnodt : (((sortByIdDesc w.db.rows).take 10).map (fun r => r.id)).Nodup :=
      hnods.sublist ((List.take_sublist 10 _).map (fun r : CityRow => r.id))
    have hne2 : List.Pairwise (fun a b : CityRow => a.id ≠ b.id)
        ((sortByIdDesc w.db.rows).take 10) :=
      List.pairwise_map.mp hnodt
    exact ((hpw.and hne2).imp
      (fun h => Nat.lt_of_le_of_ne h.1 (Ne.symm h.2))).chain'
  · intro r hr
    exact hperm.mem_iff.mp ((List.take_sublist 10 _).subset hr)
  · intro r hr r2 hr2 hnot
    have hsplit : (sortByIdDesc w.db.rows).take 10 ++ (sortByIdDesc w.db.rows).drop 10 =
        sortByIdDesc w.db.rows := List.take_append_drop 10 _
    have hpw2 := hsorted
    rw [← hsplit] at hpw2
    obtain ⟨-, -, hcross⟩ := List.pairwise_append.mp hpw2
    have hr2s : r2 ∈ sortByIdDesc w.db.rows := hperm.mem_iff.mpr hr2
    rw [← hsplit] at hr2s
    rcases List.mem_append.mp hr2s with h | h
    · exact absurd h hnot
    · exact hcross r hr r2 h

/-- A store state with 11 inserted rows (ids 0–10), including a repeated
city name. -/
def elevenWorld : World :=
  { db := ⟨[⟨0, "a", 1, 1⟩, ⟨1, "b", 1, 1⟩, ⟨2, "c", 1, 1⟩, ⟨3, "d", 1, 1⟩,
            ⟨4, "e", 1, 1⟩, ⟨5, "f", 1, 1⟩, ⟨6, "g", 1, 1⟩, ⟨7, "h", 1, 1⟩,
            ⟨8, "b", 1, 1⟩, ⟨9, "j", 1, 1⟩, ⟨10, "k", 1, 1⟩], 11⟩,
    readFail := none, writeFail := none,
    geo := GeoOutcome.response ⟨[]⟩, geoCalls := 0 }

/-- C8 witness: the last-ten theorem applied to the 11-row store. -/
theorem claim8_last_ten_witness :
    elevenWorld.readFail = none ∧
    10 < elevenWorld.db.rows.length ∧
    (elevenWorld.db.rows.map (fun r => r.id)).Nodup ∧
    (∃ sel : List CityRow,
      getLastCities elevenWorld = Except.ok (sel.map (fun r => r.name)) ∧
      sel.length = 10 ∧
      sel.Chain' (fun a b => b.id < a.id) ∧
      (∀ r ∈ sel, r ∈ elevenWorld.db.rows) ∧
      (∀ r ∈ sel, ∀ r2 ∈ elevenWorld.db.rows, r2 ∉ sel → r2.id ≤ r.id)) :=
  ⟨rfl, by decide, by decide, claim8_last_ten elevenWorld rfl (by decide) (by decide)⟩
